import Mathlib

/-!
Verification of the renzon/inferenceSampleApp frontend (src/src/app.js) and of
the backend contract described in the specification.  The JavaScript is shallowly
embedded: module-level mutable state and DOM fields become an explicit record,
each asynchronous handler becomes a transition of an event-step function, and
every network or media operation is an explicit environment input.
-/

namespace InferenceApp

/-! ## JavaScript values relevant to the embedding

The frontend applies JavaScript truthiness tests to fetched JSON values, so the
embedding keeps truthiness explicit.  A urls field of a TURN configuration may
arrive as a bare string or as an array of strings; an empty string is falsy
while an array, even an empty one, is truthy.
-/

inductive UrlsField where
  | str (s : String)
  | arr (l : List String)
  deriving DecidableEq

def UrlsField.jsTruthy : UrlsField → Bool
  | .str s => !s.isEmpty
  | .arr _ => true

def optStrTruthy : Option String → Bool
  | none => false
  | some s => !s.isEmpty

/-- Raw JSON shape returned by GET /api/webrtc_turn_config, as read by
getTurnCredentials: urls (string or array), username, credential, and an
optional ttl that must not reach the peer connection. -/
structure TurnConfig where
  urls : Option UrlsField
  username : Option String
  credential : Option String
  ttl : Option Nat := none
  deriving DecidableEq

/-- An RTCIceServer entry as the frontend builds it.  The ttl field records
whether a ttl was carried over from the raw configuration; the building code
never sets it, which embeds the field-stripping comment at app.js lines 80-86. -/
structure IceServer where
  urls : List String
  username : Option String := none
  credential : Option String := none
  ttl : Option Nat := none
  deriving DecidableEq

/-- Normalization at app.js line 78: Array.isArray keeps an array as is, a
bare string becomes a one-element array. -/
def UrlsField.normalize : UrlsField → List String
  | .str s => [s]
  | .arr l => l

/-- Outcome of the fetch inside getTurnCredentials.  transportError covers a
rejected fetch, httpError a non-ok response status (thrown, then caught
locally), parseError a rejected response.json call; ok carries the parsed
configuration. -/
inductive TurnFetch where
  | transportError (msg : String)
  | httpError (status : Nat) (statusText : String)
  | parseError (msg : String)
  | ok (config : TurnConfig)
  deriving DecidableEq

/-- app.js lines 51-97.  Any thrown error is caught and converted to null
(here none); an ok response is validated with JavaScript truthiness tests on
urls, username and credential, then reshaped to exactly the three RTCIceServer
fields with urls normalized to an array. -/
def getTurnCredentials : TurnFetch → Option IceServer
  | .transportError _ => none
  | .httpError _ _ => none
  | .parseError _ => none
  | .ok config =>
    match config.urls with
    | none => none
    | some u =>
      if !u.jsTruthy then none
      else if !optStrTruthy config.username || !optStrTruthy config.credential then none
      else some { urls := u.normalize
                  username := config.username
                  credential := config.credential }

/-- The fixed Google STUN entry, app.js line 126. -/
def stunServer : IceServer := { urls := ["stun:stun.l.google.com:19302"] }

/-- app.js lines 124-135: the ICE list starts with the STUN entry and the TURN
entry is appended only when getTurnCredentials returned one. -/
def buildIceServers (f : TurnFetch) : List IceServer :=
  match getTurnCredentials f with
  | some turn => [stunServer, turn]
  | none => [stunServer]

/-- The validation performed by getTurnCredentials on a parsed configuration,
as one predicate: urls present and truthy, username and credential truthy. -/
def turnConfigAccepted (c : TurnConfig) : Bool :=
  (match c.urls with
   | none => false
   | some u => u.jsTruthy) && optStrTruthy c.username && optStrTruthy c.credential

/-- A fetch outcome on which the frontend degrades to STUN only: a transport,
http-status or parse failure, or a response rejected by the validation. -/
def turnFetchDegraded : TurnFetch → Bool
  | .ok c => !turnConfigAccepted c
  | _ => true

/-! ## Workflow specification loader

app.js lines 22-41.  The module variable WORKFLOW_SPEC starts as null and the
fast path is the JavaScript truthiness test on it, so the cache is embedded as
a JsonDoc whose initial value is null.  The document itself is opaque to the
frontend; the embedding only distinguishes enough structure to decide
truthiness and identity. -/

inductive JsonDoc where
  | null
  | bool (b : Bool)
  | num (n : Int)
  | str (s : String)
  | obj (id : Nat)
  deriving DecidableEq

def JsonDoc.jsTruthy : JsonDoc → Bool
  | .null => false
  | .bool b => b
  | .num n => n != 0
  | .str s => !s.isEmpty
  | .obj _ => true

/-- Outcome of the fetch of /back_squat_workflow.json. -/
inductive SpecFetch where
  | transportError (msg : String)
  | httpError (status : Nat) (statusText : String)
  | parseError (msg : String)
  | ok (doc : JsonDoc)
  deriving DecidableEq

inductive LoadOutcome where
  | ok (doc : JsonDoc)
  | err (msg : String)
  deriving DecidableEq

/-- Result of one call to loadWorkflowSpec: the value returned or the error
rethrown, the new value of the WORKFLOW_SPEC module variable, and whether a
network fetch was performed. -/
structure LoadResult where
  result : LoadOutcome
  cache : JsonDoc
  fetched : Bool
  deriving DecidableEq

/-- app.js lines 24-41.  A truthy cached value is returned without fetching.
Otherwise the file is fetched: a non-ok status throws the formatted message, a
transport or parse failure rethrows, and only a successfully parsed document is
assigned to the cache. -/
def loadWorkflowSpec (cache : JsonDoc) (f : SpecFetch) : LoadResult :=
  if cache.jsTruthy then ⟨.ok cache, cache, false⟩
  else
    match f with
    | .transportError msg => ⟨.err msg, cache, true⟩
    | .httpError st t =>
        ⟨.err ("Failed to load workflow: " ++ toString st ++ " " ++ t), cache, true⟩
    | .parseError msg => ⟨.err msg, cache, true⟩
    | .ok doc => ⟨.ok doc, doc, true⟩

/-! ## The connect flow

connectWebcamToRoboflowWebRTC, app.js lines 115-173, with each external
operation (workflow fetch, TURN fetch, camera acquisition, SDK negotiation)
an explicit environment input.  start passes no workflowSpec option, so the
loader is always consulted. -/

inductive StepResult where
  | ok
  | err (msg : String)
  deriving DecidableEq

structure ConnectEnv where
  specFetch : SpecFetch
  turnFetch : TurnFetch
  cameraResult : StepResult
  negotiationResult : StepResult
  sessionId : Nat
  remoteStreamId : Nat
  deriving DecidableEq

/-- How one awaited call of connectWebcamToRoboflowWebRTC resolves, as seen by
the start handler: either a thrown error from one of the steps, or a connection.
The camera is acquired before negotiation starts, so the two failure cases are
distinguished. -/
inductive ConnectOutcome where
  | specFailed (msg : String)
  | cameraFailed (msg : String)
  | negotiationFailed (msg : String)
  | success (sessionId remoteStreamId : Nat)
  deriving DecidableEq

/-- Result of one connect attempt: how it resolved, the ICE server list that
was assembled (none when the workflow load threw before assembly), and the new
workflow cache. -/
structure ConnectRun where
  outcome : ConnectOutcome
  iceServers : Option (List IceServer)
  newCache : JsonDoc
  deriving DecidableEq

/-- app.js lines 115-173 in order: load the workflow spec (a throw propagates),
fetch TURN credentials (never throws), assemble the ICE list with the STUN
entry first, acquire the camera, then hand everything to the SDK negotiation. -/
def connectWebcamToRoboflowWebRTC (cache : JsonDoc) (env : ConnectEnv) : ConnectRun :=
  match loadWorkflowSpec cache env.specFetch with
  | ⟨.err msg, c, _⟩ => ⟨.specFailed msg, none, c⟩
  | ⟨.ok _, c, _⟩ =>
    match env.cameraResult with
    | .err msg => ⟨.cameraFailed msg, some (buildIceServers env.turnFetch), c⟩
    | .ok =>
      match env.negotiationResult with
      | .err msg => ⟨.negotiationFailed msg, some (buildIceServers env.turnFetch), c⟩
      | .ok => ⟨.success env.sessionId env.remoteStreamId,
               some (buildIceServers env.turnFetch), c⟩

/-! ## The connection lifecycle machine

The start and stop handlers of app.js run on a single event loop and suspend
only at their awaited calls, so each handler is embedded as a synchronous
entry step plus a resumption step for its awaited call.  A click on a button
whose disabled attribute is set fires no handler at all; the step function
embeds that DOM behaviour.  The phase field records which resumption, if any,
is pending: connecting means a start call is suspended at its connect await,
stopping means a stop call is suspended at its cleanup await. -/

inductive Phase where
  | idle
  | connecting
  | connected
  | stopping
  deriving DecidableEq

/-- The module state and the DOM fields the handlers touch, plus counters that
make resource usage observable: connectAttempts counts entries into the
connect sequence, sessionsCreated counts successful negotiations,
camerasAcquired counts successful camera acquisitions, activeCaptureHandles
counts capture handles not yet released, and cleanupCalls counts attempted
session releases. -/
structure AppState where
  activeConnection : Option Nat
  startDisabled : Bool
  stopDisabled : Bool
  status : String
  videoSrc : Option Nat
  phase : Phase
  connectAttempts : Nat
  sessionsCreated : Nat
  camerasAcquired : Nat
  activeCaptureHandles : Nat
  cleanupCalls : Nat
  deriving DecidableEq

/-- Page load: no connection, start enabled, stop disabled, empty status. -/
def initState : AppState :=
  { activeConnection := none
    startDisabled := false
    stopDisabled := true
    status := ""
    videoSrc := none
    phase := Phase.idle
    connectAttempts := 0
    sessionsCreated := 0
    camerasAcquired := 0
    activeCaptureHandles := 0
    cleanupCalls := 0 }

/-- Status text chosen by the catch block of start, app.js lines 217-230: an
error message mentioning the API key is replaced by the configuration message.
The includes test is embedded through splitOn. -/
def errStatus (msg : String) : String :=
  if (msg.splitOn "API key").length > 1 then "Error: Server API key not configured"
  else "Error: " ++ msg

/-- Synchronous head of start, app.js lines 178-186: the guard returns when a
connection handle exists, otherwise the start button is disabled and the
status set before the first await. -/
def startSync (s : AppState) : AppState :=
  if s.activeConnection.isSome then s
  else { s with startDisabled := true
                status := "Connecting..."
                phase := Phase.connecting
                connectAttempts := s.connectAttempts + 1 }

/-- Resumption of start once its awaited connect call resolves, app.js lines
188-230.  On success the handle is stored, the remote stream bound, the status
updated and the stop button enabled.  On any throw the catch block resets the
status, re-enables the start button and clears the handle.  When negotiation
failed the camera had already been acquired, and no code in the repository
stops its tracks, so the capture handle stays active. -/
def startResume (s : AppState) (o : ConnectOutcome) : AppState :=
  match o with
  | .specFailed msg =>
    { s with phase := Phase.idle
             startDisabled := false
             status := errStatus msg
             activeConnection := none }
  | .cameraFailed msg =>
    { s with phase := Phase.idle
             startDisabled := false
             status := errStatus msg
             activeConnection := none }
  | .negotiationFailed msg =>
    { s with camerasAcquired := s.camerasAcquired + 1
             activeCaptureHandles := s.activeCaptureHandles + 1
             phase := Phase.idle
             startDisabled := false
             status := errStatus msg
             activeConnection := none }
  | .success sid rid =>
    { s with camerasAcquired := s.camerasAcquired + 1
             activeCaptureHandles := s.activeCaptureHandles + 1
             activeConnection := some sid
             videoSrc := some rid
             status := "Connected - Processing video"
             stopDisabled := false
             phase := Phase.connected
             sessionsCreated := s.sessionsCreated + 1 }

/-- Synchronous head of stop, app.js lines 236-242: the guard returns when no
connection handle exists, otherwise the stop button is disabled and the status
set before the cleanup await. -/
def stopSync (s : AppState) : AppState :=
  if s.activeConnection.isNone then s
  else { s with stopDisabled := true
                status := "Stopping..."
                phase := Phase.stopping }

/-- Resumption of stop once cleanup resolves, app.js lines 244-256.  A cleanup
error is caught and logged, and the finally block runs unconditionally, so the
resulting state does not depend on whether cleanup succeeded.  The capture
handle decrement embeds the release of the stream the external SDK took
ownership of. -/
def stopResume (s : AppState) (_cleanupOk : Bool) : AppState :=
  { s with cleanupCalls := s.cleanupCalls + 1
           activeCaptureHandles := s.activeCaptureHandles - 1
           activeConnection := none
           videoSrc := none
           startDisabled := false
           stopDisabled := true
           status := "Idle"
           phase := Phase.idle }

/-- The events the page can process: clicks on the two buttons and the
resolutions of the two awaited calls. -/
inductive Ev where
  | startClick
  | stopClick
  | connectResolved (o : ConnectOutcome)
  | cleanupResolved (ok : Bool)
  deriving DecidableEq

/-- One event-loop step.  A click on a disabled button fires no handler; a
resolution event only applies when the matching call is pending. -/
def step (s : AppState) : Ev → AppState
  | .startClick => if s.startDisabled then s else startSync s
  | .stopClick => if s.stopDisabled then s else stopSync s
  | .connectResolved o => if s.phase = Phase.connecting then startResume s o else s
  | .cleanupResolved ok => if s.phase = Phase.stopping then stopResume s ok else s

/-- The state after processing a list of events from page load. -/
def runInit (evs : List Ev) : AppState := evs.foldl step initState

/-- Reachable-state facts the lifecycle theorems rest on: whenever a connect
call is pending or a connection is live the start button is disabled, and in
the connected phase a handle exists and the stop button is enabled. -/
def StateInv (s : AppState) : Prop :=
  ((s.phase = Phase.connecting ∨ s.phase = Phase.connected) → s.startDisabled = true) ∧
  (s.phase = Phase.connected → s.activeConnection.isSome = true ∧ s.stopDisabled = false)

/-! ## Backend model

Modelled from the spec: the backend server implementing GET /api/health and
POST /api/init-webrtc is not among the repository files under src, only its
frontend callers are, so the two endpoints are modelled from sections 4.1, 4.3
and 7 of the specification. -/

/-- Modelled from the spec: the health response carries a status, a boolean
presence flag for the API key and a message, and never the key value. -/
structure HealthResponse where
  status : String
  apiKeyConfigured : Bool
  message : String
  deriving DecidableEq

/-- Modelled from the spec: GET /api/health is read-only and reports whether
the key is present without revealing it. -/
def healthEndpoint (apiKey : Option String) : HealthResponse :=
  { status := "ok"
    apiKeyConfigured := apiKey.isSome
    message := if apiKey.isSome then "API key configured" else "API key not configured" }

/-- The answer relayed from the remote inference service. -/
structure WebrtcAnswer where
  sdp : String
  sdpType : String
  pipelineId : String
  requestId : String
  deriving DecidableEq

/-- Modelled from the spec: the error taxonomy of section 7 distinguishes a
missing-key configuration fault from a remote or network failure. -/
inductive ProxyError where
  | configurationFault (msg : String)
  | remoteFailure (msg : String)
  deriving DecidableEq

inductive RemoteResult where
  | ok (answer : WebrtcAnswer)
  | err (msg : String)
  deriving DecidableEq

inductive ProxyOutcome where
  | ok (answer : WebrtcAnswer)
  | err (e : ProxyError)
  deriving DecidableEq

/-- Result of one POST /api/init-webrtc call: the response and whether the
remote inference service was contacted. -/
structure InitWebrtcRun where
  result : ProxyOutcome
  remoteCalled : Bool
  deriving DecidableEq

/-- Modelled from the spec: with no key configured the proxy refuses to
forward and classifies the failure as configuration; with a key it forwards
and relays the remote result. -/
def initWebrtc (apiKey : Option String) (remote : RemoteResult) : InitWebrtcRun :=
  match apiKey with
  | none => ⟨.err (.configurationFault "API key not configured"), false⟩
  | some _ =>
    match remote with
    | .ok a => ⟨.ok a, true⟩
    | .err msg => ⟨.err (.remoteFailure msg), true⟩

/-! ## Helper lemmas -/

theorem getTurnCredentials_none_iff (f : TurnFetch) :
    getTurnCredentials f = none ↔ turnFetchDegraded f = true := by
  cases f with
  | transportError msg => simp [getTurnCredentials, turnFetchDegraded]
  | httpError st t => simp [getTurnCredentials, turnFetchDegraded]
  | parseError msg => simp [getTurnCredentials, turnFetchDegraded]
  | ok c =>
    cases hu : c.urls with
    | none => simp [getTurnCredentials, turnFetchDegraded, turnConfigAccepted, hu]
    | some u =>
      by_cases ht : u.jsTruthy
      · by_cases hn : optStrTruthy c.username
        · by_cases hc : optStrTruthy c.credential
          · simp [getTurnCredentials, turnFetchDegraded, turnConfigAccepted, hu, ht, hn, hc]
          · simp [getTurnCredentials, turnFetchDegraded, turnConfigAccepted, hu, ht, hn, hc]
        · simp [getTurnCredentials, turnFetchDegraded, turnConfigAccepted, hu, ht, hn]
      · simp [getTurnCredentials, turnFetchDegraded, turnConfigAccepted, hu, ht]

theorem getTurnCredentials_ok_some (c : TurnConfig) (e : IceServer)
    (h : getTurnCredentials (TurnFetch.ok c) = some e) :
    ∃ u, c.urls = some u ∧ u.jsTruthy = true ∧
      optStrTruthy c.username = true ∧ optStrTruthy c.credential = true ∧
      e.urls = u.normalize ∧ e.username = c.username ∧
      e.credential = c.credential ∧ e.ttl = none := by
  cases hu : c.urls with
  | none => simp [getTurnCredentials, hu] at h
  | some u =>
    by_cases ht : u.jsTruthy
    · by_cases hn : optStrTruthy c.username
      · by_cases hc : optStrTruthy c.credential
        · simp only [getTurnCredentials, hu, ht, hn, hc, Bool.not_true, Bool.or_self,
            Bool.false_or, Bool.or_false] at h
          rw [if_neg (fun hq => Bool.noConfusion hq),
              if_neg (fun hq => Bool.noConfusion hq)] at h
          injection h with h'
          exact ⟨u, rfl, ht, hn, hc, by rw [← h'], by rw [← h'], by rw [← h'], by rw [← h']⟩
        · simp [getTurnCredentials, hu, ht, hn, hc] at h
      · simp [getTurnCredentials, hu, ht, hn] at h
    · simp [getTurnCredentials, hu, ht] at h

theorem mem_buildIceServers (f : TurnFetch) (e : IceServer) (h : e ∈ buildIceServers f) :
    e = stunServer ∨ getTurnCredentials f = some e := by
  unfold buildIceServers at h
  cases hg : getTurnCredentials f with
  | none => rw [hg] at h; simp at h; exact Or.inl h
  | some t =>
    rw [hg] at h
    simp at h
    rcases h with h | h
    · exact Or.inl h
    · exact Or.inr (by rw [h])

theorem stateInv_initState : StateInv initState := by
  constructor
  · intro h; rcases h with h | h <;> simp [initState] at h
  · intro h; simp [initState] at h

theorem stateInv_step (s : AppState) (e : Ev) (h : StateInv s) : StateInv (step s e) := by
  obtain ⟨h1, h2⟩ := h
  cases e with
  | startClick =>
    simp only [step]
    by_cases hd : s.startDisabled = true
    · rw [if_pos hd]; exact ⟨h1, h2⟩
    · rw [if_neg hd]
      unfold startSync
      by_cases hc : s.activeConnection.isSome = true
      · rw [if_pos hc]; exact ⟨h1, h2⟩
      · rw [if_neg hc]
        exact ⟨fun _ => rfl, fun hp => Phase.noConfusion hp⟩
  | stopClick =>
    simp only [step]
    by_cases hd : s.stopDisabled = true
    · rw [if_pos hd]; exact ⟨h1, h2⟩
    · rw [if_neg hd]
      unfold stopSync
      by_cases hc : s.activeConnection.isNone = true
      · rw [if_pos hc]; exact ⟨h1, h2⟩
      · rw [if_neg hc]
        exact ⟨fun hp => hp.elim (fun hx => Phase.noConfusion hx)
                 (fun hx => Phase.noConfusion hx),
               fun hx => Phase.noConfusion hx⟩
  | connectResolved o =>
    simp only [step]
    by_cases hp : s.phase = Phase.connecting
    · rw [if_pos hp]
      cases o with
      | specFailed msg =>
        exact ⟨fun hq => hq.elim (fun hx => Phase.noConfusion hx)
                 (fun hx => Phase.noConfusion hx),
               fun hx => Phase.noConfusion hx⟩
      | cameraFailed msg =>
        exact ⟨fun hq => hq.elim (fun hx => Phase.noConfusion hx)
                 (fun hx => Phase.noConfusion hx),
               fun hx => Phase.noConfusion hx⟩
      | negotiationFailed msg =>
        exact ⟨fun hq => hq.elim (fun hx => Phase.noConfusion hx)
                 (fun hx => Phase.noConfusion hx),
               fun hx => Phase.noConfusion hx⟩
      | success sid rid =>
        exact ⟨fun _ => h1 (Or.inl hp), fun _ => ⟨rfl, rfl⟩⟩
    · rw [if_neg hp]; exact ⟨h1, h2⟩
  | cleanupResolved ok =>
    simp only [step]
    by_cases hp : s.phase = Phase.stopping
    · rw [if_pos hp]
      exact ⟨fun hq => hq.elim (fun hx => Phase.noConfusion hx)
               (fun hx => Phase.noConfusion hx),
             fun hx => Phase.noConfusion hx⟩
    · rw [if_neg hp]; exact ⟨h1, h2⟩

theorem stateInv_foldl (evs : List Ev) :
    ∀ s : AppState, StateInv s → StateInv (evs.foldl step s) := by
  induction evs with
  | nil => intro s h; simpa using h
  | cons e rest ih => intro s h; exact ih (step s e) (stateInv_step s e h)

theorem stateInv_runInit (evs : List Ev) : StateInv (runInit evs) :=
  stateInv_foldl evs initState stateInv_initState

/-- For a state with a live handle and an enabled stop button, the stop click
and the cleanup resolution produce the reset state of the finally block,
independently of the cleanup result. -/
theorem stop_then_cleanup (s : AppState) (h1 : s.activeConnection.isSome = true)
    (h2 : s.stopDisabled = false) (ok : Bool) :
    step (step s Ev.stopClick) (Ev.cleanupResolved ok) =
      { s with cleanupCalls := s.cleanupCalls + 1
               activeCaptureHandles := s.activeCaptureHandles - 1
               activeConnection := none
               videoSrc := none
               startDisabled := false
               stopDisabled := true
               status := "Idle"
               phase := Phase.idle } := by
  have hnone : s.activeConnection.isNone = false := by
    cases hx : s.activeConnection with
    | none => rw [hx] at h1; simp at h1
    | some a => simp
  simp [step, h2, stopSync, hnone, stopResume]

/-! ## Claim theorems -/

/-- C3, counterexample.  A fetched configuration whose urls field is the empty
array is truthy in JavaScript, passes the validation, and is forwarded as an
ICE entry with an empty urls list, so not every assembled entry has non-empty
urls. -/
theorem ice_nonempty_urls_counterexample :
    ¬ (∀ e ∈ buildIceServers (TurnFetch.ok
        { urls := some (UrlsField.arr []), username := some "user",
          credential := some "secret", ttl := some 600 }), e.urls ≠ []) := by
  decide

/-- C3, amended.  In every assembled ICE list, no entry carries a ttl; an
entry carrying a username or credential has both non-empty; an entry with an
empty urls list can arise only from a fetched configuration whose urls field
was itself the empty array (every other accepted shape yields non-empty urls);
and a response missing its urls field is dropped, leaving only the STUN
entry. -/
theorem ice_list_invariants :
    (∀ (f : TurnFetch) (e : IceServer), e ∈ buildIceServers f →
        e.ttl = none ∧
        ((e.username.isSome = true ∨ e.credential.isSome = true) →
          optStrTruthy e.username = true ∧ optStrTruthy e.credential = true) ∧
        (e.urls = [] → ∃ c, f = TurnFetch.ok c ∧ c.urls = some (UrlsField.arr []))) ∧
    (∀ c : TurnConfig, c.urls = none →
        buildIceServers (TurnFetch.ok c) = [stunServer]) := by
  constructor
  · intro f e hmem
    rcases mem_buildIceServers f e hmem with he | he
    · subst he
      refine ⟨rfl, ?_, ?_⟩
      · intro h; rcases h with h | h <;> simp [stunServer] at h
      · intro h; simp [stunServer] at h
    · cases f with
      | transportError msg => simp [getTurnCredentials] at he
      | httpError st t => simp [getTurnCredentials] at he
      | parseError msg => simp [getTurnCredentials] at he
      | ok c =>
        obtain ⟨u, hu, ht, hn, hc, hurls, hname, hcred, httl⟩ :=
          getTurnCredentials_ok_some c e he
        refine ⟨httl, ?_, ?_⟩
        · intro _; rw [hname, hcred]; exact ⟨hn, hc⟩
        · intro hempty
          refine ⟨c, rfl, ?_⟩
          rw [hu]
          cases u with
          | str s => rw [hurls] at hempty; simp [UrlsField.normalize] at hempty
          | arr l =>
            rw [hurls] at hempty
            simp [UrlsField.normalize] at hempty
            rw [hempty]
  · intro c hc
    simp [buildIceServers, getTurnCredentials, hc]

/-- C3, amended-theorem witness at a degraded fetch and the STUN entry. -/
theorem ice_list_invariants_witness :
    stunServer.ttl = none :=
  (ice_list_invariants.1 (TurnFetch.transportError "net down") stunServer
    (by simp [buildIceServers, getTurnCredentials])).1

/-- C5.  An accepted configuration yields an entry whose username and
credential are carried over unchanged, whose ttl is stripped (the entry type
has no other fields, embedding that exactly urls, username and credential are
kept), and whose urls are normalized: a bare string becomes the one-element
array, an array is kept as is. -/
theorem turn_entry_normalized_shape :
    ∀ (c : TurnConfig) (e : IceServer),
      getTurnCredentials (TurnFetch.ok c) = some e →
      e.username = c.username ∧ e.credential = c.credential ∧ e.ttl = none ∧
      (∀ s, c.urls = some (UrlsField.str s) → e.urls = [s]) ∧
      (∀ l, c.urls = some (UrlsField.arr l) → e.urls = l) := by
  intro c e h
  obtain ⟨u, hu, ht, hn, hc, hurls, hname, hcred, httl⟩ := getTurnCredentials_ok_some c e h
  refine ⟨hname, hcred, httl, ?_, ?_⟩
  · intro s hs
    rw [hs] at hu
    injection hu with hu
    rw [hurls, ← hu, UrlsField.normalize]
  · intro l hl
    rw [hl] at hu
    injection hu with hu
    rw [hurls, ← hu, UrlsField.normalize]

/-- C5, witness: a configuration with a bare-string urls and a ttl of 600
produces the entry with the one-element array, the unchanged credentials and
no ttl. -/
theorem turn_entry_normalized_shape_witness :
    getTurnCredentials (TurnFetch.ok
        { urls := some (UrlsField.str "turn:relay.example.com:3478"),
          username := some "user1", credential := some "pass1", ttl := some 600 }) =
      some { urls := ["turn:relay.example.com:3478"], username := some "user1",
             credential := some "pass1", ttl := none } ∧
    ({ urls := ["turn:relay.example.com:3478"], username := some "user1",
       credential := some "pass1", ttl := none } : IceServer).ttl = none := by
  refine ⟨by decide, ?_⟩
  exact (turn_entry_normalized_shape
    { urls := some (UrlsField.str "turn:relay.example.com:3478"),
      username := some "user1", credential := some "pass1", ttl := some 600 }
    { urls := ["turn:relay.example.com:3478"], username := some "user1",
      credential := some "pass1", ttl := none } (by decide)).2.2.1

/-- C4.  Whenever the TURN fetch fails in transport or its response is
rejected by the validation (missing or empty urls, username or credential),
the lookup returns none rather than throwing, the assembled ICE list is
exactly the fixed STUN entry, and a connect attempt in such an environment
still succeeds and reaches the connected state given a loaded workflow and a
successful camera acquisition and negotiation. -/
theorem turn_unavailable_degrades_to_stun :
    ∀ f : TurnFetch, turnFetchDegraded f = true →
      getTurnCredentials f = none ∧
      buildIceServers f = [stunServer] ∧
      (∀ (cache : JsonDoc) (env : ConnectEnv) (w : JsonDoc),
        env.turnFetch = f →
        (loadWorkflowSpec cache env.specFetch).result = LoadOutcome.ok w →
        env.cameraResult = StepResult.ok →
        env.negotiationResult = StepResult.ok →
        (connectWebcamToRoboflowWebRTC cache env).iceServers = some [stunServer] ∧
        (connectWebcamToRoboflowWebRTC cache env).outcome
            = ConnectOutcome.success env.sessionId env.remoteStreamId ∧
        (runInit [Ev.startClick,
            Ev.connectResolved (connectWebcamToRoboflowWebRTC cache env).outcome]).phase
            = Phase.connected ∧
        (runInit [Ev.startClick,
            Ev.connectResolved
              (connectWebcamToRoboflowWebRTC cache env).outcome]).activeConnection
            = some env.sessionId) := by
  intro f hf
  have hnone : getTurnCredentials f = none := (getTurnCredentials_none_iff f).mpr hf
  refine ⟨hnone, ?_, ?_⟩
  · unfold buildIceServers
    rw [hnone]
  · intro cache env w ht hw hcam hneg
    have hice : buildIceServers env.turnFetch = [stunServer] := by
      rw [ht]
      unfold buildIceServers
      rw [hnone]
    rcases hL : loadWorkflowSpec cache env.specFetch with ⟨res, c, fl⟩
    rw [hL] at hw
    have hres : res = LoadOutcome.ok w := hw
    subst hres
    have hcw : connectWebcamToRoboflowWebRTC cache env =
        ⟨ConnectOutcome.success env.sessionId env.remoteStreamId, some [stunServer], c⟩ := by
      simp only [connectWebcamToRoboflowWebRTC, hL, hcam, hneg, hice]
    rw [hcw]
    exact ⟨rfl, rfl, rfl, rfl⟩

/-- C4, witness: a response missing every field degrades to the STUN-only
list, and with camera and negotiation succeeding the session still reaches
the connected phase. -/
theorem turn_unavailable_degrades_to_stun_witness :
    buildIceServers (TurnFetch.ok { urls := none, username := none, credential := none })
        = [stunServer] ∧
    (runInit [Ev.startClick, Ev.connectResolved
        (connectWebcamToRoboflowWebRTC (JsonDoc.obj 0)
          { specFetch := SpecFetch.transportError "x",
            turnFetch := TurnFetch.ok { urls := none, username := none, credential := none },
            cameraResult := StepResult.ok, negotiationResult := StepResult.ok,
            sessionId := 7, remoteStreamId := 8 }).outcome]).phase = Phase.connected :=
  ⟨(turn_unavailable_degrades_to_stun
      (TurnFetch.ok { urls := none, username := none, credential := none }) rfl).2.1,
   ((turn_unavailable_degrades_to_stun
      (TurnFetch.ok { urls := none, username := none, credential := none }) rfl).2.2
      (JsonDoc.obj 0)
      { specFetch := SpecFetch.transportError "x",
        turnFetch := TurnFetch.ok { urls := none, username := none, credential := none },
        cameraResult := StepResult.ok, negotiationResult := StepResult.ok,
        sessionId := 7, remoteStreamId := 8 }
      (JsonDoc.obj 0) rfl rfl rfl rfl).2.2.1⟩

/-- C1.  A start request while a connect call is pending or a connection is
live changes nothing: in both phases the start button is disabled, so the
click fires no handler, and even a live connection hits the guard.  The
two-start scenarios create exactly one session and enter the connect sequence
exactly once, whether the second request lands during connecting or after the
connection succeeded. -/
theorem start_noop_when_connecting_or_connected :
    (∀ evs : List Ev,
        ((runInit evs).phase = Phase.connecting ∨ (runInit evs).phase = Phase.connected) →
        step (runInit evs) Ev.startClick = runInit evs) ∧
    (∀ sid rid : Nat,
        runInit [Ev.startClick, Ev.startClick,
            Ev.connectResolved (ConnectOutcome.success sid rid)]
          = runInit [Ev.startClick, Ev.connectResolved (ConnectOutcome.success sid rid)] ∧
        (runInit [Ev.startClick, Ev.startClick,
            Ev.connectResolved (ConnectOutcome.success sid rid)]).sessionsCreated = 1 ∧
        (runInit [Ev.startClick, Ev.startClick,
            Ev.connectResolved (ConnectOutcome.success sid rid)]).connectAttempts = 1 ∧
        (runInit [Ev.startClick, Ev.connectResolved (ConnectOutcome.success sid rid),
            Ev.startClick]).sessionsCreated = 1 ∧
        (runInit [Ev.startClick, Ev.connectResolved (ConnectOutcome.success sid rid),
            Ev.startClick]).connectAttempts = 1) := by
  have hmain : ∀ evs : List Ev,
      ((runInit evs).phase = Phase.connecting ∨ (runInit evs).phase = Phase.connected) →
      step (runInit evs) Ev.startClick = runInit evs := by
    intro evs hph
    obtain ⟨h1, _⟩ := stateInv_runInit evs
    simp only [step]
    rw [if_pos (h1 hph)]
  exact ⟨hmain, fun sid rid => ⟨rfl, rfl, rfl, rfl, rfl⟩⟩

/-- C1, witness: right after a first start click the machine is connecting and
a second click is the identity. -/
theorem start_noop_when_connecting_or_connected_witness :
    step (runInit [Ev.startClick]) Ev.startClick = runInit [Ev.startClick] :=
  start_noop_when_connecting_or_connected.1 [Ev.startClick] (Or.inl rfl)

/-- C2, evaluation at the failing input.  With the workflow loaded, the camera
acquired and the SDK negotiation throwing, the machine does return to idle
with no session handle and the start button re-enabled, but the capture handle
acquired for the attempt is never released: the catch block of start resets
only status, button and handle, and no code in the repository stops the
acquired stream. -/
theorem negotiation_failure_rolls_back_but_leaks_camera :
    (connectWebcamToRoboflowWebRTC JsonDoc.null
        { specFetch := SpecFetch.ok (JsonDoc.obj 0),
          turnFetch := TurnFetch.transportError "net down",
          cameraResult := StepResult.ok,
          negotiationResult := StepResult.err "negotiation failed",
          sessionId := 0, remoteStreamId := 0 }).outcome
      = ConnectOutcome.negotiationFailed "negotiation failed" ∧
    (runInit [Ev.startClick, Ev.connectResolved
        (ConnectOutcome.negotiationFailed "negotiation failed")]).phase = Phase.idle ∧
    (runInit [Ev.startClick, Ev.connectResolved
        (ConnectOutcome.negotiationFailed "negotiation failed")]).activeConnection = none ∧
    (runInit [Ev.startClick, Ev.connectResolved
        (ConnectOutcome.negotiationFailed "negotiation failed")]).startDisabled = false ∧
    (runInit [Ev.startClick, Ev.connectResolved
        (ConnectOutcome.negotiationFailed "negotiation failed")]).camerasAcquired = 1 ∧
    (runInit [Ev.startClick, Ev.connectResolved
        (ConnectOutcome.negotiationFailed "negotiation failed")]).activeCaptureHandles = 1 :=
  ⟨rfl, rfl, rfl, rfl, rfl, rfl⟩

/-- C7.  From any reachable connected state, a stop request attempts the
session release exactly once and the transition to idle completes whatever the
release returns: handle cleared, media sink cleared, start control re-enabled,
status Idle; the final state is the same whether cleanup failed or
succeeded. -/
theorem stop_from_connected_unconditional_teardown :
    ∀ (evs : List Ev) (ok : Bool),
      (runInit evs).phase = Phase.connected →
      (step (step (runInit evs) Ev.stopClick) (Ev.cleanupResolved ok)).cleanupCalls
          = (runInit evs).cleanupCalls + 1 ∧
      (step (step (runInit evs) Ev.stopClick) (Ev.cleanupResolved ok)).phase = Phase.idle ∧
      (step (step (runInit evs) Ev.stopClick) (Ev.cleanupResolved ok)).activeConnection
          = none ∧
      (step (step (runInit evs) Ev.stopClick) (Ev.cleanupResolved ok)).videoSrc = none ∧
      (step (step (runInit evs) Ev.stopClick) (Ev.cleanupResolved ok)).startDisabled
          = false ∧
      (step (step (runInit evs) Ev.stopClick) (Ev.cleanupResolved ok)).status = "Idle" ∧
      step (step (runInit evs) Ev.stopClick) (Ev.cleanupResolved false)
          = step (step (runInit evs) Ev.stopClick) (Ev.cleanupResolved true) := by
  intro evs ok hph
  obtain ⟨h1, h2⟩ := stateInv_runInit evs
  obtain ⟨hsome, hstop⟩ := h2 hph
  rw [stop_then_cleanup (runInit evs) hsome hstop ok,
      stop_then_cleanup (runInit evs) hsome hstop false,
      stop_then_cleanup (runInit evs) hsome hstop true]
  exact ⟨rfl, rfl, rfl, rfl, rfl, rfl, rfl⟩

/-- C7, witness at a concrete connected run, with a failing cleanup. -/
theorem stop_from_connected_unconditional_teardown_witness :
    (step (step (runInit [Ev.startClick, Ev.connectResolved (ConnectOutcome.success 1 1)])
        Ev.stopClick) (Ev.cleanupResolved false)).status = "Idle" :=
  (stop_from_connected_unconditional_teardown
    [Ev.startClick, Ev.connectResolved (ConnectOutcome.success 1 1)] false rfl).2.2.2.2.2.1

/-- C8.  A stop request with no active handle is the identity on the whole
state (no release, no change), and from a reachable connected state the stop
request plus its cleanup resolution perform the release exactly once, after
which a further stop request is again the identity. -/
theorem stop_noop_idle_and_single_teardown :
    (∀ s : AppState, s.activeConnection = none → step s Ev.stopClick = s) ∧
    (∀ (evs : List Ev) (ok : Bool),
      (runInit evs).phase = Phase.connected →
      (step (step (runInit evs) Ev.stopClick) (Ev.cleanupResolved ok)).cleanupCalls
          = (runInit evs).cleanupCalls + 1 ∧
      step (step (step (runInit evs) Ev.stopClick) (Ev.cleanupResolved ok)) Ev.stopClick
          = step (step (runInit evs) Ev.stopClick) (Ev.cleanupResolved ok)) := by
  have hidle : ∀ s : AppState, s.activeConnection = none → step s Ev.stopClick = s := by
    intro s hs
    simp only [step]
    by_cases hd : s.stopDisabled = true
    · rw [if_pos hd]
    · rw [if_neg hd]
      unfold stopSync
      rw [if_pos (by rw [hs]; rfl)]
  refine ⟨hidle, ?_⟩
  intro evs ok hph
  obtain ⟨h1, h2⟩ := stateInv_runInit evs
  obtain ⟨hsome, hstop⟩ := h2 hph
  rw [stop_then_cleanup (runInit evs) hsome hstop ok]
  exact ⟨rfl, hidle _ rfl⟩

/-- C8, witness: stop at page load is the identity, and the concrete connected
run performs one release. -/
theorem stop_noop_idle_and_single_teardown_witness :
    step initState Ev.stopClick = initState ∧
    (step (step (runInit [Ev.startClick, Ev.connectResolved (ConnectOutcome.success 2 2)])
        Ev.stopClick) (Ev.cleanupResolved true)).cleanupCalls
      = (runInit [Ev.startClick, Ev.connectResolved
          (ConnectOutcome.success 2 2)]).cleanupCalls + 1 :=
  ⟨stop_noop_idle_and_single_teardown.1 initState rfl,
   (stop_noop_idle_and_single_teardown.2
      [Ev.startClick, Ev.connectResolved (ConnectOutcome.success 2 2)] true rfl).1⟩

/-- C9, counterexample.  The memoization guard is a JavaScript truthiness test
on the module variable, so a successfully fetched document that is itself the
JSON value null is returned, logged as loaded, yet not effectively cached: a
second call fetches again and can return a different document.  The fetch is
therefore not bounded by one per page lifetime on this input. -/
theorem workflow_cache_counterexample :
    loadWorkflowSpec JsonDoc.null (SpecFetch.ok JsonDoc.null)
        = ⟨LoadOutcome.ok JsonDoc.null, JsonDoc.null, true⟩ ∧
    (loadWorkflowSpec (loadWorkflowSpec JsonDoc.null (SpecFetch.ok JsonDoc.null)).cache
        (SpecFetch.ok (JsonDoc.obj 1))).fetched = true ∧
    (loadWorkflowSpec (loadWorkflowSpec JsonDoc.null (SpecFetch.ok JsonDoc.null)).cache
        (SpecFetch.ok (JsonDoc.obj 1))).result = LoadOutcome.ok (JsonDoc.obj 1) ∧
    (loadWorkflowSpec (loadWorkflowSpec JsonDoc.null (SpecFetch.ok JsonDoc.null)).cache
        (SpecFetch.ok (JsonDoc.obj 1))).result ≠ LoadOutcome.ok JsonDoc.null := by
  refine ⟨rfl, rfl, rfl, ?_⟩
  decide

/-- C9, amended.  Once a truthy document (in particular any JSON object, the
shape of a workflow specification) has been loaded, every later call returns
that identical cached document without fetching and leaves the cache
unmodified; a first load from an unset (falsy) cache stores the fetched
document.  A falsy loaded document is the one exception: it is not effectively
cached and is fetched again. -/
theorem workflow_loaded_once_when_truthy :
    (∀ (w : JsonDoc) (f : SpecFetch), w.jsTruthy = true →
        loadWorkflowSpec w f = ⟨LoadOutcome.ok w, w, false⟩) ∧
    (∀ (c d : JsonDoc), c.jsTruthy = false →
        loadWorkflowSpec c (SpecFetch.ok d) = ⟨LoadOutcome.ok d, d, true⟩) := by
  constructor
  · intro w f hw
    unfold loadWorkflowSpec
    rw [if_pos hw]
  · intro c d hc
    unfold loadWorkflowSpec
    rw [if_neg (by rw [hc]; exact fun hq => Bool.noConfusion hq)]

/-- C9, amended-theorem witness: an object document is cached and returned
without a second fetch. -/
theorem workflow_loaded_once_when_truthy_witness :
    loadWorkflowSpec (JsonDoc.obj 0) (SpecFetch.transportError "down")
        = ⟨LoadOutcome.ok (JsonDoc.obj 0), JsonDoc.obj 0, false⟩ ∧
    loadWorkflowSpec JsonDoc.null (SpecFetch.ok (JsonDoc.obj 0))
        = ⟨LoadOutcome.ok (JsonDoc.obj 0), JsonDoc.obj 0, true⟩ :=
  ⟨workflow_loaded_once_when_truthy.1 (JsonDoc.obj 0) (SpecFetch.transportError "down") rfl,
   workflow_loaded_once_when_truthy.2 JsonDoc.null (JsonDoc.obj 0) rfl⟩

/-- C10.  When the cache is unset (falsy) and the fetch fails — transport
error, non-ok status, or parse failure — the loader propagates the error, the
cache is left exactly as it was, and any later call performs a fetch again. -/
theorem workflow_load_failure_not_cached :
    ∀ c : JsonDoc, c.jsTruthy = false →
      (∀ msg, loadWorkflowSpec c (SpecFetch.transportError msg)
          = ⟨LoadOutcome.err msg, c, true⟩) ∧
      (∀ st t, loadWorkflowSpec c (SpecFetch.httpError st t)
          = ⟨LoadOutcome.err ("Failed to load workflow: " ++ toString st ++ " " ++ t),
             c, true⟩) ∧
      (∀ msg, loadWorkflowSpec c (SpecFetch.parseError msg)
          = ⟨LoadOutcome.err msg, c, true⟩) ∧
      (∀ f, (loadWorkflowSpec c f).fetched = true) := by
  intro c hc
  have hneg : ¬(c.jsTruthy = true) := by rw [hc]; exact fun hq => Bool.noConfusion hq
  refine ⟨?_, ?_, ?_, ?_⟩
  · intro msg
    unfold loadWorkflowSpec
    rw [if_neg hneg]
  · intro st t
    unfold loadWorkflowSpec
    rw [if_neg hneg]
  · intro msg
    unfold loadWorkflowSpec
    rw [if_neg hneg]
  · intro f
    unfold loadWorkflowSpec
    rw [if_neg hneg]
    cases f <;> rfl

/-- C10, witness at the unset cache and a 404 response. -/
theorem workflow_load_failure_not_cached_witness :
    loadWorkflowSpec JsonDoc.null (SpecFetch.httpError 404 "Not Found")
        = ⟨LoadOutcome.err "Failed to load workflow: 404 Not Found", JsonDoc.null, true⟩ :=
  (workflow_load_failure_not_cached JsonDoc.null rfl).2.1 404 "Not Found"

/-- C6.  Modelled from the spec (the backend is not among the repository
sources): with no key configured the health response reports the presence flag
false, the health response depends on the key only through its presence (so
the key value itself can never appear in it), and an init-webrtc call refuses
to contact the remote service and classifies the failure as a configuration
fault. -/
theorem health_reports_and_proxy_refuses_without_key :
    (healthEndpoint none).apiKeyConfigured = false ∧
    (∀ k1 k2 : String, healthEndpoint (some k1) = healthEndpoint (some k2)) ∧
    (∀ k : Option String, (healthEndpoint k).apiKeyConfigured = k.isSome) ∧
    (∀ remote : RemoteResult, (initWebrtc none remote).remoteCalled = false) ∧
    (∀ remote : RemoteResult, (initWebrtc none remote).result
        = ProxyOutcome.err (ProxyError.configurationFault "API key not configured")) := by
  refine ⟨rfl, fun k1 k2 => rfl, fun k => ?_, fun remote => rfl, fun remote => rfl⟩
  cases k <;> rfl

end InferenceApp
